import Mathlib

/-!
Verification development for the BrowserAgent repository
(single source file: streamlit_app.py).

The Python source is shallowly embedded below.  External capabilities
(the HTTP stack, the Playwright browser session, the OpenAI completion
client) are modelled as explicit oracles passed to the embedded
functions; machine strings are Lean `String` values (Python `str`
slicing and length are by code points, matching `String` characters);
Python exceptions are modelled by explicit outcome constructors, since
every relevant `try` block in the source catches `Exception` and turns
it into a value-level branch.  The Python `str` methods used by the
source (`startswith`, `strip`, `lower`, `split`, `join`, slicing) are
implemented below over the character list of a `String`, with
whitespace and case handled at the ASCII level.
-/

namespace BrowserAgent

/-! ## Python string primitives -/

/-- Python `s[:n]` on `str`: the first `n` characters. -/
def pyTake (s : String) (n : Nat) : String :=
  String.mk (s.data.take n)

/-- Python `s.startswith(pre)`. -/
def pyStartsWith (s pre : String) : Bool :=
  pre.data.isPrefixOf s.data

/-- Boolean substring test, modelling the Python `in` operator on `str`:
`containsSub hay pat = true` iff `pat` occurs contiguously in `hay`. -/
def containsSub (hay pat : String) : Bool :=
  (List.range (hay.data.length + 1)).any fun i => pat.data.isPrefixOf (hay.data.drop i)

/-- Python `s.strip()` restricted to ASCII whitespace. -/
def pyStrip (s : String) : String :=
  String.mk (((s.data.dropWhile Char.isWhitespace).reverse.dropWhile Char.isWhitespace).reverse)

def lowerChar (c : Char) : Char :=
  if 65 ≤ c.toNat ∧ c.toNat ≤ 90 then Char.ofNat (c.toNat + 32) else c

/-- Python `s.lower()` restricted to ASCII letters. -/
def pyLower (s : String) : String :=
  String.mk (s.data.map lowerChar)

/-- Worker for `pySplit`.  The fuel argument only drives structural
recursion; it is always at least the length of the remaining input, so
the fuel-exhausted branch is unreachable. -/
def pySplitAux (sep : List Char) : Nat → List Char → List Char → List (List Char)
  | _, acc, [] => [acc.reverse]
  | 0, acc, l => [acc.reverse ++ l]
  | fuel + 1, acc, c :: cs =>
    if sep.isPrefixOf (c :: cs) then
      acc.reverse :: pySplitAux sep fuel [] ((c :: cs).drop sep.length)
    else
      pySplitAux sep fuel (c :: acc) cs

/-- Python `s.split(sep)` for a non-empty separator: non-overlapping
left-to-right splitting, keeping empty parts. -/
def pySplit (s sep : String) : List String :=
  (pySplitAux sep.data (s.data.length + 1) [] s.data).map String.mk

/-- Worker for `pySplitWords`; `cur` is the current word, reversed. -/
def pyWordsAux (cur : List Char) : List Char → List (List Char)
  | [] => if cur.isEmpty then [] else [cur.reverse]
  | c :: cs =>
    if c.isWhitespace then
      if cur.isEmpty then pyWordsAux [] cs else cur.reverse :: pyWordsAux [] cs
    else pyWordsAux (c :: cur) cs

/-- Python `s.split()` (no separator): split on whitespace runs,
dropping empty words. -/
def pySplitWords (s : String) : List String :=
  (pyWordsAux [] s.data).map String.mk

/-- Python `sep.join(parts)`. -/
def pyJoin (sep : String) : List String → String
  | [] => ""
  | [x] => x
  | x :: y :: xs => x ++ sep ++ pyJoin sep (y :: xs)

/-! ## ResultExtractor: `extract_google_results` (streamlit_app.py lines 121-194)

A `Container` models one element matched by the result-container
selector cascade `div.g, div.tF2Cxc, div.MjjYud, ...`; its fields model
the outcome of the per-field selector cascades run by `select_one`
(`none` when no selector matches), with `get_text()` applied. -/

structure Container where
  titleText : Option String
  linkHref : Option String
  snippetText : Option String
deriving DecidableEq, Repr

structure SearchResult where
  title : String
  url : String
  snippet : String
deriving DecidableEq, Repr

/-- The provider-internal denylist substrings of line 177. -/
def denySubstrings : List String := [ "google.com", "youtube.com/results" ]

def hexVal (c : Char) : Option Nat :=
  if 48 ≤ c.toNat ∧ c.toNat ≤ 57 then some (c.toNat - 48)
  else if 97 ≤ c.toNat ∧ c.toNat ≤ 102 then some (c.toNat - 97 + 10)
  else if 65 ≤ c.toNat ∧ c.toNat ≤ 70 then some (c.toNat - 65 + 10)
  else none

/-- ASCII-level model of `urllib.parse.unquote_plus`: `+` becomes a space
and `%XY` hex escapes decode to the corresponding character. -/
def pctDecode : List Char → List Char
  | [] => []
  | '+' :: rest => ' ' :: pctDecode rest
  | '%' :: a :: b :: rest2 =>
    match hexVal a, hexVal b with
    | some x, some y => Char.ofNat (16 * x + y) :: pctDecode rest2
    | _, _ => '%' :: pctDecode (a :: b :: rest2)
  | c :: rest => c :: pctDecode rest

def pctDecodeStr (s : String) : String :=
  String.mk (pctDecode s.data)

/-- The `query` component of `urllib.parse.urlparse`: the part after the
first `?` of the pre-fragment portion (the fragment starts at the first `#`). -/
def urlQuery (url : String) : String :=
  let beforeFrag := (pySplit url "#").headD ""
  match pySplit beforeFrag "?" with
  | [] => ""
  | [_] => ""
  | _ :: rest => pyJoin "?" rest

/-- Models `urllib.parse.parse_qs(urllib.parse.urlparse(url).query)` followed
by `.get` of the `q` key with default and `[0]`, from lines 161-162: the first
non-blank value of the `q` parameter, percent-decoded, or the empty string. -/
def parse_qs_q (url : String) : String :=
  let pairs := pySplit (urlQuery url) "&"
  let vals := pairs.filterMap fun p =>
    match pySplit p "=" with
    | k :: v :: more =>
      let value := pyJoin "=" (v :: more)
      if value = "" then none
      else if pctDecodeStr k = "q" then some (pctDecodeStr value) else none
    | _ => none
  vals.headD ""

/-- Lines 148-149: the title cascade with its fallback text. -/
def containerTitle (c : Container) : String :=
  match c.titleText with
  | some t => pyStrip t
  | none => "No title"

/-- Lines 152-166: the link extraction, Google redirect unwrapping, and
the `continue` skips for internal `/search?` and `#` links; `url` stays
empty when no link element matches. -/
def containerUrl (c : Container) : Option String :=
  match c.linkHref with
  | none => some ""
  | some href =>
    if pyStartsWith href "/url?" then some (parse_qs_q href)
    else if pyStartsWith href "/search?" || pyStartsWith href "#" then none
    else some href

/-- Lines 169-170: the snippet cascade with its fallback text. -/
def containerSnippet (c : Container) : String :=
  match c.snippetText with
  | some s => pyStrip s
  | none => "No description"

/-- The validation condition of lines 173-177. -/
def validResult (title url : String) : Bool :=
  (title != "No title") && (url != "") && pyStartsWith url "http" &&
  (title.length > 0 : Bool) &&
  !(denySubstrings.any fun skip => containsSub (pyLower url) skip)

/-- One iteration of the per-container loop (lines 146-187): field
cascades, Google redirect unwrapping, and the validation of lines 173-177.
`none` models the `continue` paths. -/
def processContainer (c : Container) : Option SearchResult :=
  match containerUrl c with
  | none => none
  | some url =>
    if validResult (containerTitle c) url then
      some { title := containerTitle c, url := url, snippet := containerSnippet c }
    else none

/-- `extract_google_results` (lines 121-194): iterate the first 10
containers (`search_containers[:10]`), keeping the validated ones in
document order.  The outer `except` branch returning `[]` is
unreachable in this total model; the inner per-container `except: continue`
paths are the `none` results of `processContainer`. -/
def extract_google_results (doc : List Container) : List SearchResult :=
  (doc.take 10).filterMap processContainer

/-! ## ContentFetcher: `scrape_webpage_content` (lines 196-257) -/

/-- The parsed response document after `decompose` of the unwanted
elements: `mainRegion` is the text of the first matching selector of
`content_selectors` (lines 226-232), `bodyText` the text of the
body-or-whole-soup fallback (line 236). -/
structure Page where
  mainRegion : Option String
  bodyText : String
deriving DecidableEq, Repr

/-- Outcome of the `requests.get` call plus response processing:
`err` models a `requests.exceptions.RequestException` (line 216),
`exn` models any other exception reaching the outer handler (line 254),
`ok` a successful response parsed into a `Page`. -/
inductive FetchOutcome where
  | err (msg : String)
  | exn (msg : String)
  | ok (page : Page)
deriving DecidableEq, Repr

/-- Lines 241-243: strip each line, split lines at double spaces, strip
the phrases, and join the non-empty chunks with single spaces. -/
def cleanStage1 (text : String) : String :=
  let lines := (pySplit text "\n").map pyStrip
  let chunks := (lines.map fun line => (pySplit line "  ").map pyStrip).flatten
  pyJoin " " (chunks.filter fun c => c ≠ "")

/-- Worker for `collapseRun`; the flag records whether the previous
character was inside a whitespace run. -/
def collapseRunAux : Bool → List Char → List Char
  | _, [] => []
  | prevWs, c :: cs =>
    if c.isWhitespace then
      if prevWs then collapseRunAux true cs else ' ' :: collapseRunAux true cs
    else c :: collapseRunAux false cs

/-- Collapse every whitespace run to a single space, modelling the
substitution of whitespace-runs by a space (line 246). -/
def collapseRun (l : List Char) : List Char :=
  collapseRunAux false l

/-- The full text cleanup of lines 240-246. -/
def cleanText (raw : String) : String :=
  pyStrip (String.mk (collapseRun (cleanStage1 raw).data))

/-- The text the code selects before cleanup (lines 226-238). -/
def pageText (page : Page) : String :=
  page.mainRegion.getD page.bodyText

/-- `scrape_webpage_content` (lines 196-257): URL validation, the GET with
its error placeholder, cleanup, and truncation to `max_chars` with the
`...` marker.  `net` is the HTTP oracle. -/
def scrape_webpage_content (net : String → FetchOutcome) (url : String) (max_chars : Nat) : String :=
  if (url == "") || !(pyStartsWith url "http") then "Invalid URL: " ++ url
  else
    match net url with
    | FetchOutcome.err e => "Failed to fetch " ++ url ++ ": " ++ e
    | FetchOutcome.exn e => "Could not scrape content from " ++ url ++ ": " ++ e
    | FetchOutcome.ok page =>
      let text := cleanText (pageText page)
      if text.length > max_chars then pyTake text max_chars ++ "..." else text

/-! ## Summarizer: `generate_summary` (lines 278-318) and the data model -/

structure ScrapedItem where
  title : String
  url : String
  snippet : String
  content : String
deriving DecidableEq, Repr

/-- The OpenAI completion capability: system prompt and user prompt to
either a completion text or an exception message (quota, network, auth).
Model and sampling parameters are fixed in the source and omitted. -/
def Client : Type := String → String → Except String String

/-- Line 300: the system prompt of `generate_summary`. -/
def summarySystemPrompt : String :=
  "You are a helpful assistant that creates concise, informative summaries of web search results. Provide a comprehensive summary that covers the key points from all the search results. Focus on the most important and relevant information."

def dashes80 : String := String.mk (List.replicate 80 '-')

/-- One iteration of the prompt-building loop of lines 287-292. -/
def contentBlock (i : Nat) (r : ScrapedItem) : String :=
  "\n" ++ toString i ++ ". " ++ r.title ++ "\n" ++
  "URL: " ++ r.url ++ "\n" ++
  "Snippet: " ++ r.snippet ++ "\n" ++
  "Content: " ++ pyTake r.content 800 ++ "...\n" ++
  dashes80 ++ "\n"

/-- The `content_text` prompt body built by lines 285-292. -/
def content_text (query : String) (scraped : List ScrapedItem) : String :=
  "Search Query: " ++ query ++ "\n\nSearch Results:\n" ++
  String.join ((List.enumFrom 1 scraped).map fun p => contentBlock p.1 p.2)

/-- Line 304: the user prompt of `generate_summary`. -/
def summaryUserPrompt (query contentText : String) : String :=
  "Please provide a comprehensive summary of these search results for the query \x27" ++
  query ++ "\x27:\n\n" ++ contentText

/-- `generate_summary` (lines 278-318).  The second component records the
completion requests issued to the client, in order, so that "no request
is made" is the statement that this list is empty.  On an empty corpus
the function returns its fixed placeholder at line 281 before any client
use; a client exception is caught at line 315 and converted to the error
string of line 318. -/
def generate_summary (client : Client) (scraped : List ScrapedItem) (query : String) :
    String × List (String × String) :=
  if scraped.isEmpty then ("No search results found to summarize.", [])
  else
    let prompt := summaryUserPrompt query (content_text query scraped)
    match client summarySystemPrompt prompt with
    | Except.ok s => (s, [(summarySystemPrompt, prompt)])
    | Except.error e =>
      ("Could not generate summary due to an error: " ++ e, [(summarySystemPrompt, prompt)])

/-! ## The fallback chain

`search_with_google` (lines 320-482) and `search_with_duckduckgo`
(lines 484-646) have byte-identical bodies: the second is a pasted copy
of the Google flow (its docstring still reads "Original Google search
method"), and the intended DuckDuckGo flow at lines 647-745 is
unreachable dead code after the `return`/`except` of the pasted body.
Both bodies fall back to `self.search_with_duckduckgo` on every failure
path, so `search_with_duckduckgo` re-enters itself.  The shared body is
embedded once as `methodBody` below; the outcome of each browser attempt
is drawn from a stream `envs : Nat → AttemptEnv` of per-attempt
environments (attempt `k` uses `envs k`).

The bot state models the mutable fields of `StreamlitBrowserSearchBot`
used by these claims; `statusTrace` additionally records every
assignment to `current_status` in order, for the status-monotonicity
claim.  The activity log and the screenshot queue are side channels not
referenced by any claim and are not modelled. -/

structure BotState where
  status : String
  statusTrace : List String
  search_results : List SearchResult
  scraped_content : List ScrapedItem
deriving DecidableEq, Repr

/-- An assignment `self.current_status = s`. -/
def pushStatus (st : BotState) (s : String) : BotState :=
  { st with status := s, statusTrace := st.statusTrace ++ [s] }

/-- The state set up by `__init__` (lines 91-98). -/
def initState : BotState :=
  { status := "idle", statusTrace := ["idle"],
    search_results := [], scraped_content := [] }

/-- The dictionary returned by one run.  `summary := none` together with
`error := some msg` models the error dictionary of lines 917-921, which
carries no summary key; timestamps are not modelled. -/
structure RunResult where
  query : String
  search_results : List SearchResult
  scraped_content : List ScrapedItem
  summary : Option String
  error : Option String
deriving DecidableEq, Repr

/-- The external events of one browser attempt of the shared provider
body: whether launch/navigation raises even after the slow-network retry
(lines 329-359), the rendered document at the pre-submit interstitial
check (line 362), whether locating/typing into the search input raises
(lines 380-414; a never-visible input surfaces as a raised click timeout
caught at line 411), the document at the post-submit check (line 588),
and the parsed result containers of the results page. -/
structure AttemptEnv where
  navRaises : Bool
  page1 : String
  submitFails : Bool
  page2 : String
  doc : List Container
deriving DecidableEq, Repr

/-- The pre-submit anti-bot scan of line 363 (also line 527). -/
def blockedPre (content : String) : Bool :=
  containsSub (pyLower content) "captcha" ||
  containsSub (pyLower content) "unusual traffic" ||
  containsSub (pyLower content) "not a robot"

/-- The post-submit anti-bot scan of line 589 (no "not a robot" marker). -/
def blockedPost (content : String) : Bool :=
  containsSub (pyLower content) "captcha" ||
  containsSub (pyLower content) "unusual traffic"

/-- Control outcome of one execution of the shared provider body. -/
inductive AttemptResult where
  | raised
  | blocked
  | submitFailed
  | noResults
  | success (r : RunResult)
deriving DecidableEq, Repr

/-- Content-fetch one extracted result (the loop body of lines 610-619). -/
def scrapeItem (net : String → FetchOutcome) (r : SearchResult) : ScrapedItem :=
  { title := r.title, url := r.url, snippet := r.snippet,
    content := scrape_webpage_content net r.url 2000 }

/-- The shared body of `search_with_google` / `search_with_duckduckgo`
(lines 484-639): set status running and clear the result fields
(lines 486-488), then launch/navigate, the two interstitial checks, the
query submission, extraction, the bounded scrape loop, and summary
generation.  `raised` is an exception reaching the `except` of line 641;
every other non-success constructor is a `return` into the fallback call.
The scrape loop appends one item per result since
`scrape_webpage_content` never raises. -/
def methodBody (net : String → FetchOutcome) (client : Client) (env : AttemptEnv)
    (st : BotState) (query : String) (max_results : Nat) : BotState × AttemptResult :=
  let st := { pushStatus st "running" with search_results := [], scraped_content := [] }
  if env.navRaises then (st, AttemptResult.raised)
  else if blockedPre env.page1 then (st, AttemptResult.blocked)
  else if env.submitFails then (st, AttemptResult.submitFailed)
  else if blockedPost env.page2 then (st, AttemptResult.blocked)
  else
    let results := extract_google_results env.doc
    let st := { st with search_results := results }
    if results.isEmpty then (st, AttemptResult.noResults)
    else
      let scraped := (results.take max_results).map (scrapeItem net)
      let st := { st with scraped_content := scraped }
      if scraped.isEmpty then (st, AttemptResult.noResults)
      else
        let summary := (generate_summary client scraped query).1
        (pushStatus st "complete",
         AttemptResult.success
           { query := query, search_results := results, scraped_content := scraped,
             summary := some summary, error := none })

/-- `search_with_duckduckgo` (lines 484-646).  Its live body is the pasted
Google flow, and every failure path returns
`self.search_with_duckduckgo(query, max_results)`, i.e. the function
re-enters itself with a fresh browser attempt (the next entry of `envs`);
the `raised` path first sets `current_status = "error"` (line 642).
`fuel` bounds the recursion depth: `none` means the fuel was exhausted,
i.e. the recursion did not terminate within `fuel` attempts. -/
def search_with_duckduckgo (net : String → FetchOutcome) (client : Client)
    (envs : Nat → AttemptEnv) (query : String) (max_results : Nat) :
    Nat → Nat → BotState → Option (BotState × RunResult)
  | 0, _, _ => none
  | fuel + 1, k, st =>
    match methodBody net client (envs k) st query max_results with
    | (st', AttemptResult.success r) => some (st', r)
    | (st', AttemptResult.raised) =>
      search_with_duckduckgo net client envs query max_results fuel (k + 1)
        (pushStatus st' "error")
    | (st', _) =>
      search_with_duckduckgo net client envs query max_results fuel (k + 1) st'

/-- `search_with_google` (lines 320-482): the same body, with every
failure path falling back to `search_with_duckduckgo` (the `raised` path
of line 478 sets `current_status = "error"` first). -/
def search_with_google (net : String → FetchOutcome) (client : Client)
    (envs : Nat → AttemptEnv) (query : String) (max_results : Nat)
    (fuel : Nat) (st : BotState) : Option (BotState × RunResult) :=
  match methodBody net client (envs 0) st query max_results with
  | (st', AttemptResult.success r) => some (st', r)
  | (st', AttemptResult.raised) =>
    search_with_duckduckgo net client envs query max_results fuel 1 (pushStatus st' "error")
  | (st', _) =>
    search_with_duckduckgo net client envs query max_results fuel 1 st'

/-- `search_and_summarize` (lines 923-931): delegates to
`search_with_duckduckgo`; its `except` branch is unreachable because
`search_with_duckduckgo` catches every exception internally. -/
def search_and_summarize (net : String → FetchOutcome) (client : Client)
    (envs : Nat → AttemptEnv) (query : String) (max_results : Nat)
    (fuel : Nat) (st : BotState) : Option (BotState × RunResult) :=
  search_with_duckduckgo net client envs query max_results fuel 0 st

/-! ## Knowledge-only stage and static catalog (lines 789-921) -/

/-- Line 886: the system prompt of `generate_ai_only_response`. -/
def aiOnlySystemPrompt : String :=
  "You are a helpful assistant. The user asked a question but web search is currently unavailable. Provide a comprehensive answer based on your training data. Be clear that this information is based on your knowledge cutoff and may not include the very latest developments."

/-- Line 900: the non-web-grounded disclaimer prefix. -/
def aiOnlyDisclaimer : String :=
  "**Note: Web search is currently unavailable, so this response is based on AI knowledge only and may not include the very latest information.**\n\n"

/-- `generate_ai_only_response` (lines 876-921): invoke the Summarizer on
the bare query; on success prefix the disclaimer and set status complete;
on a client exception set status error and return the error dictionary
(no summary key). -/
def generate_ai_only_response (client : Client) (st : BotState) (query : String) :
    BotState × RunResult :=
  match client aiOnlySystemPrompt ("Please provide a comprehensive answer about: " ++ query) with
  | Except.ok s =>
    (pushStatus st "complete",
     { query := query, search_results := [], scraped_content := [],
       summary := some (aiOnlyDisclaimer ++ s), error := none })
  | Except.error e =>
    (pushStatus st "error",
     { query := query, search_results := [], scraped_content := [],
       summary := none, error := some ("Even AI-only response failed: " ++ e) })

def mitResult : SearchResult :=
  { title := "Artificial Intelligence Trends - MIT Technology Review",
    url := "https://www.technologyreview.com/topic/artificial-intelligence/",
    snippet := "Latest developments in artificial intelligence research and applications." }

def openaiResult : SearchResult :=
  { title := "AI News and Research - OpenAI",
    url := "https://openai.com/blog",
    snippet := "Research updates and insights from OpenAI on artificial intelligence." }

def forbesResult : SearchResult :=
  { title := "Tech Trends 2024 - Forbes",
    url := "https://www.forbes.com/technology/",
    snippet := "Latest technology trends and innovations for 2024." }

/-- `fallback_search_api` (lines 789-828): the static keyword catalog.
Its `except` branch is unreachable in this total model. -/
def fallback_search_api (query : String) : List SearchResult :=
  let search_terms := pySplitWords (pyLower query)
  let r1 :=
    if search_terms.any (fun t => t = "ai" ∨ t = "artificial" ∨ t = "intelligence") then
      [mitResult, openaiResult]
    else []
  let r2 :=
    if search_terms.any (fun t => t = "2024" ∨ t = "trends" ∨ t = "latest") then
      [forbesResult]
    else []
  (r1 ++ r2).take 5

/-- `fallback_search_and_summarize` (lines 830-874): catalog lookup, a
scrape loop that appends to (rather than resets) `scraped_content`, and
summary generation.  When the scrape loop left the corpus empty, line 860
reads the summary key of a fresh `generate_ai_only_response` dictionary;
if that call failed, the missing key raises and the `except` of line 873
invokes `generate_ai_only_response` once more. -/
def fallback_search_and_summarize (net : String → FetchOutcome) (client : Client)
    (st : BotState) (query : String) (max_results : Nat) : BotState × RunResult :=
  let results := fallback_search_api query
  let st := { st with search_results := results }
  if results.isEmpty then generate_ai_only_response client st query
  else
    let scraped := st.scraped_content ++ (results.take max_results).map (scrapeItem net)
    let st := { st with scraped_content := scraped }
    if scraped.isEmpty then
      match generate_ai_only_response client st query with
      | (st', r) =>
        match r.summary with
        | some s =>
          (pushStatus st' "complete",
           { query := query, search_results := results, scraped_content := scraped,
             summary := some s, error := none })
        | none => generate_ai_only_response client st' query
    else
      let summary := (generate_summary client scraped query).1
      (pushStatus st "complete",
       { query := query, search_results := results, scraped_content := scraped,
         summary := some summary, error := none })

/-! ## Concrete inputs used by witnesses and counterexamples -/

/-- A container none of whose field selectors matched. -/
def noFieldContainer : Container := ⟨none, none, none⟩

/-- A container whose link passes the `startswith http` check of line 175
without being scheme-qualified. -/
def schemeFreeContainer : Container := ⟨some "Example", some "httpz://evil", some "s"⟩

/-- An ordinary valid result container. -/
def plainContainer : Container := ⟨some "T", some "http://site.example/a", some "snip"⟩

def sixContainers : List Container := List.replicate 6 plainContainer

/-- An HTTP oracle that always succeeds with a small page. -/
def sampleNet : String → FetchOutcome := fun _ => FetchOutcome.ok ⟨none, "body text"⟩

/-- A completion client that always succeeds. -/
def sampleClient : Client := fun _ _ => Except.ok "S"

/-- A completion client that always raises. -/
def failingClient : Client := fun _ _ => Except.error "quota"

/-- A browser attempt that completes with one extractable result. -/
def goodAttempt : AttemptEnv := ⟨false, "ok page", false, "results", [plainContainer]⟩

/-- A browser attempt whose navigation raises. -/
def raisedAttempt : AttemptEnv := ⟨true, "", false, "", []⟩

/-- A browser attempt stopped by an anti-bot interstitial. -/
def blockedAttempt : AttemptEnv :=
  ⟨false, "Our systems have detected unusual traffic. Please complete the CAPTCHA.", false, "", []⟩

def raisedThenGood : Nat → AttemptEnv := fun k => if k = 0 then raisedAttempt else goodAttempt

def blockedThenGood : Nat → AttemptEnv := fun k => if k = 0 then blockedAttempt else goodAttempt

/-- The final bot state of the run whose primary attempt raises and whose
second attempt is `goodAttempt`. -/
def raisedRunState : BotState :=
  { status := "complete",
    statusTrace := ["idle", "running", "error", "running", "complete"],
    search_results := [ { title := "T", url := "http://site.example/a", snippet := "snip" } ],
    scraped_content :=
      [ { title := "T", url := "http://site.example/a", snippet := "snip",
          content := "body text" } ] }

/-- The run dictionary of that same run. -/
def raisedRunValue : RunResult :=
  { query := "q",
    search_results := [ { title := "T", url := "http://site.example/a", snippet := "snip" } ],
    scraped_content :=
      [ { title := "T", url := "http://site.example/a", snippet := "snip",
          content := "body text" } ],
    summary := some "S",
    error := none }

/-! ## Helper lemmas -/

theorem strLenAppend (a b : String) : (a ++ b).length = a.length + b.length := by
  cases a with
  | mk la =>
    cases b with
    | mk lb =>
      show (la ++ lb).length = la.length + lb.length
      exact List.length_append la lb

theorem pyTakeLen (s : String) (n : Nat) : (pyTake s n).length = min n s.length := by
  cases s with
  | mk l =>
    show (l.take n).length = min n l.length
    exact List.length_take n l

theorem startsWithHttpNe (url : String) (h : pyStartsWith url "http" = true) :
    (url == "") = false := by
  by_cases he : url = ""
  · rw [he] at h
    exact absurd h (by decide)
  · simp [he]

/-! ## Claims -/

/-- Claim C4: `ResultExtractor.extract` never raises — it is a total
function of the parsed document in this embedding, and the total-failure
handler of line 193 returns the empty list — and on any document none of
whose containers yields a valid candidate (in particular a document with
zero matching result containers) it returns the empty sequence. -/
theorem c4_extract_never_fails (doc : List Container)
    (h : ∀ c ∈ doc, processContainer c = none) :
    extract_google_results doc = [] := by
  unfold extract_google_results
  exact List.filterMap_eq_nil_iff.mpr fun c hc => h c (List.mem_of_mem_take hc)

theorem c4_witness :
    (∀ c ∈ [noFieldContainer], processContainer c = none) ∧
    extract_google_results [noFieldContainer] = [] :=
  ⟨by decide, c4_extract_never_fails [noFieldContainer] (by decide)⟩

/-- Claim C5, counterexample: the validation of line 175 only checks the
prefix `http`, so a container whose link is `httpz://evil` is extracted
with a URL that starts with neither `http://` nor `https://`. -/
theorem c5_counterexample :
    extract_google_results [schemeFreeContainer] =
      [ { title := "Example", url := "httpz://evil", snippet := "s" } ] ∧
    pyStartsWith "httpz://evil" "http://" = false ∧
    pyStartsWith "httpz://evil" "https://" = false := by decide

/-- Claim C5 (amended): every extracted result URL starts with `http`
(the literal check of line 175, not the scheme-qualified `http://` or
`https://` of the claim), and no extracted URL contains a denylist
substring; candidates failing either check are absent from the output. -/
theorem c5_amended_url_check (doc : List Container) (r : SearchResult)
    (h : r ∈ extract_google_results doc) :
    pyStartsWith r.url "http" = true ∧
    ∀ d ∈ denySubstrings, containsSub (pyLower r.url) d = false := by
  obtain ⟨c, _, hp⟩ := List.mem_filterMap.mp h
  unfold processContainer at hp
  split at hp
  · exact absurd hp (by simp)
  · rename_i url hU
    split at hp
    · rename_i hv
      have hr := Option.some.inj hp
      unfold validResult at hv
      simp only [Bool.and_eq_true, Bool.not_eq_true', List.any_eq_false] at hv
      subst hr
      exact ⟨hv.1.1.2, fun d hd => by simpa using hv.2 d hd⟩
    · exact absurd hp (by simp)

theorem c5_witness :
    ({ title := "T", url := "http://site.example/a", snippet := "snip" } : SearchResult)
        ∈ extract_google_results [plainContainer] ∧
    pyStartsWith "http://site.example/a" "http" = true :=
  ⟨by decide,
   (c5_amended_url_check [plainContainer]
     { title := "T", url := "http://site.example/a", snippet := "snip" } (by decide)).1⟩

/-- Claim C6, counterexample: `extract_google_results` takes no
per-call result bound — the loop of line 145 caps at the fixed 10 — so a
document with six valid containers yields six entries, not at most five. -/
theorem c6_counterexample : ¬ (extract_google_results sixContainers).length ≤ 5 := by decide

/-- Claim C6 (amended): the extractor returns at most 10 entries (the
fixed `[:10]` cap of line 145; there is no `maxResults` parameter), and
the output preserves document order: it is an order-preserving
sub-sequence of the per-container candidates of the whole document. -/
theorem c6_amended_cap_and_order (doc : List Container) :
    (extract_google_results doc).length ≤ 10 ∧
    List.Sublist (extract_google_results doc) (doc.filterMap processContainer) := by
  constructor
  · exact le_trans (List.length_filterMap_le _ _) (List.length_take_le _ _)
  · exact List.Sublist.filterMap _ (List.take_sublist _ _)

/-- Claim C7, counterexample: the failure placeholder of line 217 embeds
the URL and the exception text, so its length is not bounded by
`maxChars` plus the truncation-marker length: with `maxChars = 5` an
unreachable host already produces a longer string. -/
theorem c7_counterexample :
    5 + "...".length <
      (scrape_webpage_content (fun _ => FetchOutcome.err "connection refused")
        "http://unreachable.example.com" 5).length := by decide

/-- Claim C7 (amended): `ContentFetcher.fetch` never raises (it is a
total function in this embedding) and on any network, timeout, or parse
error — including an unreachable host — returns a string embedding a
recognizable failure marker; the `maxChars` plus marker-length bound
holds for the successful-fetch path, while the failure placeholders
scale with the URL and error text instead. -/
theorem c7_amended_markers_and_bound (net : String → FetchOutcome) (url : String)
    (max_chars : Nat) (e : String) (page : Page) :
    (pyStartsWith url "http" = false →
      scrape_webpage_content net url max_chars = "Invalid URL: " ++ url) ∧
    (pyStartsWith url "http" = true → net url = FetchOutcome.err e →
      scrape_webpage_content net url max_chars = "Failed to fetch " ++ url ++ ": " ++ e) ∧
    (pyStartsWith url "http" = true → net url = FetchOutcome.exn e →
      scrape_webpage_content net url max_chars =
        "Could not scrape content from " ++ url ++ ": " ++ e) ∧
    (pyStartsWith url "http" = true → net url = FetchOutcome.ok page →
      (scrape_webpage_content net url max_chars).length ≤ max_chars + "...".length) := by
  refine ⟨fun hu => ?_, fun hu hn => ?_, fun hu hn => ?_, fun hu hn => ?_⟩
  · simp [scrape_webpage_content, hu]
  · simp [scrape_webpage_content, hu, startsWithHttpNe url hu, hn]
  · simp [scrape_webpage_content, hu, startsWithHttpNe url hu, hn]
  · have hred : scrape_webpage_content net url max_chars =
        if (cleanText (pageText page)).length > max_chars
        then pyTake (cleanText (pageText page)) max_chars ++ "..."
        else cleanText (pageText page) := by
      simp [scrape_webpage_content, hu, startsWithHttpNe url hu, hn]
    rw [hred]
    have h3 : "...".length = 3 := rfl
    split_ifs with ht
    · rw [strLenAppend, pyTakeLen, Nat.min_eq_left (Nat.le_of_lt ht), h3]
    · omega

theorem c7_witness :
    scrape_webpage_content (fun _ => FetchOutcome.err "refused") "http://u" 5 =
      "Failed to fetch http://u: refused" :=
  (c7_amended_markers_and_bound (fun _ => FetchOutcome.err "refused") "http://u" 5 "refused"
    ⟨none, ""⟩).2.1 (by decide) rfl

/-- Claim C8: on a successfully fetched page, when the cleaned text is
longer than `maxChars` the result is exactly its first `maxChars`
characters followed by the `...` marker, and otherwise the cleaned text
unmodified; the function is deterministic — it is a pure function of its
arguments in this embedding, so re-running on identical input yields an
identical string (last conjunct). -/
theorem c8_truncation (net : String → FetchOutcome) (url : String) (max_chars : Nat)
    (page : Page) (hu : pyStartsWith url "http" = true) (hn : net url = FetchOutcome.ok page) :
    ((cleanText (pageText page)).length > max_chars →
      scrape_webpage_content net url max_chars =
        pyTake (cleanText (pageText page)) max_chars ++ "...") ∧
    ((cleanText (pageText page)).length ≤ max_chars →
      scrape_webpage_content net url max_chars = cleanText (pageText page)) ∧
    scrape_webpage_content net url max_chars = scrape_webpage_content net url max_chars := by
  refine ⟨fun ht => ?_, fun ht => ?_, rfl⟩
  · simp [scrape_webpage_content, hu, startsWithHttpNe url hu, hn, ht]
  · simp [scrape_webpage_content, hu, startsWithHttpNe url hu, hn, Nat.not_lt.mpr ht]

theorem c8_witness :
    scrape_webpage_content (fun _ => FetchOutcome.ok ⟨none, "aaaaa"⟩) "http://e" 3 = "aaa..." := by
  have h := (c8_truncation (fun _ => FetchOutcome.ok ⟨none, "aaaaa"⟩) "http://e" 3
    ⟨none, "aaaaa"⟩ (by decide) rfl).1 (by decide)
  rw [h]
  decide

/-- Claim C10: on an empty scraped-content corpus, `generate_summary`
returns the fixed placeholder of line 281 and issues no completion
request to the Summarizer (the request log is empty). -/
theorem c10_empty_corpus (client : Client) (query : String) :
    generate_summary client [] query = ("No search results found to summarize.", []) := rfl

theorem methodBody_success_shape (net : String → FetchOutcome) (client : Client)
    (env : AttemptEnv) (st : BotState) (query : String) (max_results : Nat)
    (st' : BotState) (r : RunResult)
    (h : methodBody net client env st query max_results = (st', AttemptResult.success r)) :
    st'.status = "complete" ∧
    st'.statusTrace = st.statusTrace ++ ["running", "complete"] ∧
    r.error = none := by
  simp only [methodBody] at h
  split_ifs at h <;> rw [Prod.mk.injEq] at h
  all_goals try exact AttemptResult.noConfusion h.2
  obtain ⟨h1, h2⟩ := h
  rw [AttemptResult.success.injEq] at h2
  subst h1
  subst h2
  refine ⟨rfl, ?_, rfl⟩
  simp [pushStatus, List.append_assoc]

theorem methodBody_state_trace (net : String → FetchOutcome) (client : Client)
    (env : AttemptEnv) (st : BotState) (query : String) (max_results : Nat) :
    (methodBody net client env st query max_results).1.statusTrace =
      st.statusTrace ++ ["running"] ∨
    (methodBody net client env st query max_results).1.statusTrace =
      st.statusTrace ++ ["running", "complete"] := by
  simp only [methodBody]
  split_ifs <;> simp [pushStatus, List.append_assoc]

theorem methodBody_trace_prefix (net : String → FetchOutcome) (client : Client)
    (env : AttemptEnv) (st : BotState) (query : String) (max_results : Nat) :
    List.IsPrefix st.statusTrace
      (methodBody net client env st query max_results).1.statusTrace := by
  rcases methodBody_state_trace net client env st query max_results with h | h
  · exact ⟨["running"], h.symm⟩
  · exact ⟨["running", "complete"], h.symm⟩

theorem ddg_shape (net : String → FetchOutcome) (client : Client) (envs : Nat → AttemptEnv)
    (query : String) (max_results : Nat) :
    ∀ fuel k st st' r,
      search_with_duckduckgo net client envs query max_results fuel k st = some (st', r) →
      st'.status = "complete" ∧
      List.IsPrefix st.statusTrace st'.statusTrace ∧
      (∃ pre, st'.statusTrace = pre ++ ["complete"]) ∧
      r.error = none := by
  intro fuel
  induction fuel with
  | zero =>
    intro k st st' r h
    exact absurd h (by simp [search_with_duckduckgo])
  | succ n ih =>
    intro k st st' r h
    simp only [search_with_duckduckgo] at h
    rcases hm : methodBody net client (envs k) st query max_results with ⟨st1, res⟩
    rw [hm] at h
    have hpre1 : List.IsPrefix st.statusTrace st1.statusTrace := by
      have hx := methodBody_trace_prefix net client (envs k) st query max_results
      rw [hm] at hx
      exact hx
    cases res with
    | success r0 =>
      simp only [Option.some.injEq, Prod.mk.injEq] at h
      obtain ⟨h1, h2⟩ := h
      subst h1
      subst h2
      obtain ⟨hs, htr, herr⟩ :=
        methodBody_success_shape net client (envs k) st query max_results _ _ hm
      refine ⟨hs, hpre1, ⟨st.statusTrace ++ ["running"], ?_⟩, herr⟩
      rw [htr]
      simp [List.append_assoc]
    | raised =>
      obtain ⟨hs, hpre, hend, herr⟩ := ih (k + 1) (pushStatus st1 "error") st' r h
      have hpre2 : List.IsPrefix st1.statusTrace (pushStatus st1 "error").statusTrace :=
        ⟨["error"], rfl⟩
      exact ⟨hs, hpre1.trans (hpre2.trans hpre), hend, herr⟩
    | blocked =>
      obtain ⟨hs, hpre, hend, herr⟩ := ih (k + 1) st1 st' r h
      exact ⟨hs, hpre1.trans hpre, hend, herr⟩
    | submitFailed =>
      obtain ⟨hs, hpre, hend, herr⟩ := ih (k + 1) st1 st' r h
      exact ⟨hs, hpre1.trans hpre, hend, herr⟩
    | noResults =>
      obtain ⟨hs, hpre, hend, herr⟩ := ih (k + 1) st1 st' r h
      exact ⟨hs, hpre1.trans hpre, hend, herr⟩

/-- Claim C1: when the primary provider attempt is stopped by the
anti-bot interstitial scan and the secondary provider attempt runs to
completion with a non-empty extraction, the run returns with status
complete, its `search_results` and `scraped_content` derived solely from
the secondary attempt (attempt 1 of `envs`); the conclusion mentions no
attempt beyond index 1 and no catalog or knowledge-only stage, which are
therefore not consulted. -/
theorem c1_blocked_primary_secondary_completes
    (net : String → FetchOutcome) (client : Client) (envs : Nat → AttemptEnv)
    (query : String) (max_results fuel : Nat) (st : BotState)
    (hmr : 0 < max_results)
    (h0nav : (envs 0).navRaises = false)
    (h0block : blockedPre (envs 0).page1 = true)
    (h1nav : (envs 1).navRaises = false)
    (h1pre : blockedPre (envs 1).page1 = false)
    (h1sub : (envs 1).submitFails = false)
    (h1post : blockedPost (envs 1).page2 = false)
    (h1res : extract_google_results (envs 1).doc ≠ []) :
    search_with_google net client envs query max_results (fuel + 1) st =
      some
        ({ status := "complete",
           statusTrace := st.statusTrace ++ ["running", "running", "complete"],
           search_results := extract_google_results (envs 1).doc,
           scraped_content :=
             ((extract_google_results (envs 1).doc).take max_results).map (scrapeItem net) },
         { query := query,
           search_results := extract_google_results (envs 1).doc,
           scraped_content :=
             ((extract_google_results (envs 1).doc).take max_results).map (scrapeItem net),
           summary := some (generate_summary client
             (((extract_google_results (envs 1).doc).take max_results).map (scrapeItem net))
             query).1,
           error := none }) := by
  obtain ⟨a, l, hres⟩ : ∃ a l, extract_google_results (envs 1).doc = a :: l := by
    rcases hE : extract_google_results (envs 1).doc with _ | ⟨a, l⟩
    · exact absurd hE h1res
    · exact ⟨a, l, rfl⟩
  obtain ⟨m, rfl⟩ : ∃ m, max_results = m + 1 := ⟨max_results - 1, by omega⟩
  have hm0 : methodBody net client (envs 0) st query (m + 1) =
      ({ pushStatus st "running" with search_results := [], scraped_content := [] },
       AttemptResult.blocked) := by
    simp [methodBody, h0nav, h0block]
  have hm1 : ∀ st0 : BotState, methodBody net client (envs 1) st0 query (m + 1) =
      ({ status := "complete",
         statusTrace := st0.statusTrace ++ ["running", "complete"],
         search_results := a :: l,
         scraped_content := (a :: List.take m l).map (scrapeItem net) },
       AttemptResult.success
         { query := query,
           search_results := a :: l,
           scraped_content := (a :: List.take m l).map (scrapeItem net),
           summary := some (generate_summary client
             ((a :: List.take m l).map (scrapeItem net)) query).1,
           error := none }) := by
    intro st0
    simp [methodBody, h1nav, h1pre, h1sub, h1post, hres, pushStatus, List.append_assoc]
  simp only [search_with_google, hm0, search_with_duckduckgo, hm1]
  simp [pushStatus, hres, List.append_assoc]

theorem c1_witness :
    search_with_google sampleNet sampleClient blockedThenGood "q" 5 1 initState =
      some
        ({ status := "complete",
           statusTrace := initState.statusTrace ++ ["running", "running", "complete"],
           search_results := extract_google_results (blockedThenGood 1).doc,
           scraped_content :=
             ((extract_google_results (blockedThenGood 1).doc).take 5).map
               (scrapeItem sampleNet) },
         { query := "q",
           search_results := extract_google_results (blockedThenGood 1).doc,
           scraped_content :=
             ((extract_google_results (blockedThenGood 1).doc).take 5).map
               (scrapeItem sampleNet),
           summary := some (generate_summary sampleClient
             (((extract_google_results (blockedThenGood 1).doc).take 5).map
               (scrapeItem sampleNet)) "q").1,
           error := none }) :=
  c1_blocked_primary_secondary_completes sampleNet sampleClient blockedThenGood "q" 5 0
    initState (by decide) (by decide) (by decide) (by decide) (by decide) (by decide)
    (by decide) (by decide)

/-- Claim C2, evaluation at the failing input: with every attempt stopped
by the interstitial, `search_with_duckduckgo` re-enters itself — one step
of the recursion (second conjunct) is again `search_with_duckduckgo` on
the next attempt — and returns nothing for every recursion bound (first
conjunct), i.e. the run never terminates, contradicting the claim that
each stage is attempted at most once and that `run` always returns. -/
theorem c2_blocked_self_reentry (net : String → FetchOutcome) (client : Client)
    (query : String) (max_results : Nat) :
    (∀ fuel k st,
      search_with_duckduckgo net client (fun _ => blockedAttempt) query max_results
        fuel k st = none) ∧
    (∀ fuel k st,
      search_with_duckduckgo net client (fun _ => blockedAttempt) query max_results
        (fuel + 1) k st =
      search_with_duckduckgo net client (fun _ => blockedAttempt) query max_results
        fuel (k + 1)
        { pushStatus st "running" with search_results := [], scraped_content := [] }) := by
  have hb : blockedPre "Our systems have detected unusual traffic. Please complete the CAPTCHA." = true := by
    decide
  have hstep : ∀ fuel k st,
      search_with_duckduckgo net client (fun _ => blockedAttempt) query max_results
        (fuel + 1) k st =
      search_with_duckduckgo net client (fun _ => blockedAttempt) query max_results
        fuel (k + 1)
        { pushStatus st "running" with search_results := [], scraped_content := [] } := by
    intro fuel k st
    simp [search_with_duckduckgo, methodBody, blockedAttempt, hb]
  refine ⟨?_, hstep⟩
  intro fuel
  induction fuel with
  | zero => intro k st; rfl
  | succ n ih =>
    intro k st
    rw [hstep]
    exact ih (k + 1) _

/-- Claim C3, counterexample: a run whose first attempt raises an
exception sets status to error and then falls back, which sets status
back to running; the concrete status trace contains "error" strictly
before a later "running" within the same run. -/
theorem c3_counterexample :
    (search_with_google sampleNet sampleClient raisedThenGood "q" 5 1 initState).map
        (fun p => p.1.statusTrace) =
      some ["idle", "running", "error", "running", "complete"] ∧
    ∃ i j : Fin 5, i < j ∧
      ["idle", "running", "error", "running", "complete"].get i = "error" ∧
      ["idle", "running", "error", "running", "complete"].get j = "running" := by
  constructor
  · decide
  · decide

/-- Claim C3 (amended): the status is not monotone within a run — a
stage failing by exception writes error and the fallback re-entry writes
running again (see the counterexample) — but the trace is append-only
(the initial trace stays a prefix) and a run of the provider chain that
returns normally finishes with status complete, its trace ending in
"complete". -/
theorem c3_amended_final_status (net : String → FetchOutcome) (client : Client)
    (envs : Nat → AttemptEnv) (query : String) (max_results fuel : Nat)
    (st st' : BotState) (r : RunResult)
    (h : search_with_google net client envs query max_results fuel st = some (st', r)) :
    st'.status = "complete" ∧
    List.IsPrefix st.statusTrace st'.statusTrace ∧
    ∃ pre, st'.statusTrace = pre ++ ["complete"] := by
  unfold search_with_google at h
  rcases hm : methodBody net client (envs 0) st query max_results with ⟨st1, res⟩
  rw [hm] at h
  have hpre1 : List.IsPrefix st.statusTrace st1.statusTrace := by
    have hx := methodBody_trace_prefix net client (envs 0) st query max_results
    rw [hm] at hx
    exact hx
  cases res with
  | success r0 =>
    simp only [Option.some.injEq, Prod.mk.injEq] at h
    obtain ⟨h1, h2⟩ := h
    subst h1
    obtain ⟨hs, htr, _⟩ :=
      methodBody_success_shape net client (envs 0) st query max_results _ _ hm
    refine ⟨hs, hpre1, ⟨st.statusTrace ++ ["running"], ?_⟩⟩
    rw [htr]
    simp [List.append_assoc]
  | raised =>
    obtain ⟨hs, hpre, hend, _⟩ :=
      ddg_shape net client envs query max_results fuel 1 (pushStatus st1 "error") st' r h
    have hpre2 : List.IsPrefix st1.statusTrace (pushStatus st1 "error").statusTrace :=
      ⟨["error"], rfl⟩
    exact ⟨hs, hpre1.trans (hpre2.trans hpre), hend⟩
  | blocked =>
    obtain ⟨hs, hpre, hend, _⟩ :=
      ddg_shape net client envs query max_results fuel 1 st1 st' r h
    exact ⟨hs, hpre1.trans hpre, hend⟩
  | submitFailed =>
    obtain ⟨hs, hpre, hend, _⟩ :=
      ddg_shape net client envs query max_results fuel 1 st1 st' r h
    exact ⟨hs, hpre1.trans hpre, hend⟩
  | noResults =>
    obtain ⟨hs, hpre, hend, _⟩ :=
      ddg_shape net client envs query max_results fuel 1 st1 st' r h
    exact ⟨hs, hpre1.trans hpre, hend⟩

theorem c3_amended_witness :
    search_with_google sampleNet sampleClient raisedThenGood "q" 5 1 initState =
      some (raisedRunState, raisedRunValue) ∧
    raisedRunState.status = "complete" :=
  ⟨by decide,
   (c3_amended_final_status sampleNet sampleClient raisedThenGood "q" 5 1 initState
     raisedRunState raisedRunValue (by decide)).1⟩

/-- Claim C9: when the static catalog yields nothing and the Summarizer
raises on the knowledge-only stage, the run finishes with status error,
an error message, and no summary; and this is the chain's sole
unrecoverable error — any normal return of the provider chain carries
`error = none` (last conjunct). -/
theorem c9_summarizer_failure (net : String → FetchOutcome) (client : Client)
    (st : BotState) (query : String) (max_results : Nat) (e : String)
    (hcat : fallback_search_api query = [])
    (hclient : client aiOnlySystemPrompt
        ("Please provide a comprehensive answer about: " ++ query) = Except.error e) :
    (fallback_search_and_summarize net client st query max_results).1.status = "error" ∧
    (fallback_search_and_summarize net client st query max_results).2.summary = none ∧
    (fallback_search_and_summarize net client st query max_results).2.error =
      some ("Even AI-only response failed: " ++ e) ∧
    ∀ envs fuel k st1 p,
      search_with_duckduckgo net client envs query max_results fuel k st1 = some p →
      p.2.error = none := by
  have hred : fallback_search_and_summarize net client st query max_results =
      (pushStatus { st with search_results := [] } "error",
       { query := query, search_results := [], scraped_content := [],
         summary := none, error := some ("Even AI-only response failed: " ++ e) }) := by
    simp [fallback_search_and_summarize, hcat, generate_ai_only_response, hclient]
  refine ⟨?_, ?_, ?_, ?_⟩
  · rw [hred]; rfl
  · rw [hred]
  · rw [hred]
  · intro envs fuel k st1 p hp
    rcases p with ⟨st2, r2⟩
    exact (ddg_shape net client envs query max_results fuel k st1 st2 r2 hp).2.2.2

theorem c9_witness :
    (fallback_search_and_summarize sampleNet failingClient initState "zzz" 5).1.status =
      "error" ∧
    (fallback_search_and_summarize sampleNet failingClient initState "zzz" 5).2.summary =
      none ∧
    (fallback_search_and_summarize sampleNet failingClient initState "zzz" 5).2.error =
      some "Even AI-only response failed: quota" :=
  ⟨(c9_summarizer_failure sampleNet failingClient initState "zzz" 5 "quota"
      (by decide) rfl).1,
   (c9_summarizer_failure sampleNet failingClient initState "zzz" 5 "quota"
      (by decide) rfl).2.1,
   (c9_summarizer_failure sampleNet failingClient initState "zzz" 5 "quota"
      (by decide) rfl).2.2.1⟩

end BrowserAgent
